import Mathlib

/-!
Shallow embedding of the sandboxed-workspace core of this repository
(`shared_utils.py`, `project_state.py`, `backend.py`), on POSIX path
semantics (`os.sep = '/'`; a backslash is an ordinary file-name
character).  Absolute paths are modelled as lists of path components;
`PROJECTS_DIR` (the sandbox root) is a parameter `root : List String`
holding the components of the already-canonicalized absolute root.
-/

deriving instance DecidableEq for Except

namespace ClaudePlus

/-- Whether an `Except` result is the raised-exception case. -/
def isErr {ε α : Type} : Except ε α → Bool
  | .error _ => true
  | .ok _ => false

/-- Splitting a character list at a separator character, accumulator
style (each finished piece is reversed back into order). -/
def splitCharAux (sep : Char) : List Char → List Char → List String
  | [], acc => [⟨acc.reverse⟩]
  | c :: rest, acc =>
    if c = sep then ⟨acc.reverse⟩ :: splitCharAux sep rest []
    else splitCharAux sep rest (c :: acc)

/-- Python `str.split(sep)` for a one-character separator
(`"a//b".split('/') = ["a", "", "b"]`, `"".split('/') = [""]`). -/
def pySplit (sep : Char) (s : String) : List String :=
  splitCharAux sep s.data []

/-- Whether the string starts with `'/'` (`str.startswith('/')`, also
what `lstrip('/')` removes and `pathlib` reads as absoluteness). -/
def startsWithSlash (s : String) : Bool :=
  s.data.head? == some '/'

/-- Whether the string ends with `'/'`. -/
def endsWithSlash (s : String) : Bool :=
  s.data.getLast? == some '/'

/-- Component split used by `pathlib` when parsing a POSIX path string:
split on `'/'`, dropping empty components and `"."` components
(`PurePosixPath` normalization).  Leading slashes only mark
absoluteness, which every caller of this function has already stripped
(`str.lstrip('/')`), so they are simply dropped here. -/
def splitPath (s : String) : List String :=
  (pySplit '/' s).filter (fun c => c ≠ "" && c ≠ ".")

/-- Lexical canonicalization of an absolute path given by its components:
`Path.resolve()` with no symlinks.  `".."` pops the last component
(at the filesystem root it is a no-op, as in POSIX), `"."` is dropped. -/
def resolveAbs (segs : List String) : List String :=
  segs.foldl
    (fun acc c =>
      if c = ".." then acc.dropLast
      else if c = "." then acc
      else acc ++ [c]) []

/-- `os.path.normpath` on a relative POSIX path, at component level:
`".."` cancels a preceding real component but a leading run of `".."`
is kept. -/
def normRel (segs : List String) : List String :=
  segs.foldl
    (fun acc c =>
      if c = ".." then
        match acc.getLast? with
        | none => [".."]
        | some ".." => acc ++ [".."]
        | some _ => acc.dropLast
      else if c = "." then acc
      else acc ++ [c]) []

/-- `os.path.normpath(path)` followed by `.lstrip(os.sep)`, as component
list (the lstrip only cancels absoluteness, under which `normpath`
resolves `".."` against the filesystem root). -/
def pyNormpathSegs (path : String) : List String :=
  let comps := (pySplit '/' path).filter (fun c => c ≠ "" && c ≠ ".")
  if startsWithSlash path then resolveAbs comps else normRel comps

/-- Python `str.replace('\\', '/')`: every backslash character becomes a
forward slash. -/
def pyReplaceBS (s : String) : String :=
  ⟨s.data.map (fun c => if c = '\\' then '/' else c)⟩

/-- Python `str.replace(os.sep, '/')` with POSIX `os.sep = '/'`: every
`'/'` becomes `'/'`, i.e. the identity, written out faithfully. -/
def pyReplaceSep (s : String) : String :=
  ⟨s.data.map (fun c => if c = '/' then '/' else c)⟩

/-- After `.replace('\\', '/')`, the string is re-parsed by `pathlib`
(`Path(PROJECTS_DIR) / normalized_path`): each component is split at the
backslashes it contained, dropping empty and `"."` pieces. -/
def bsSplit (segs : List String) : List String :=
  segs.flatMap (fun c => (pySplit '/' (pyReplaceBS c)).filter (fun x => x ≠ "" && x ≠ "."))

/-- Join components with `'/'` (what `str(Path)` / `os.path.relpath`
produce for a relative path with at least one component). -/
def joinSlash : List String → String
  | [] => ""
  | [s] => s
  | s :: rest => s ++ "/" ++ joinSlash rest

/-- String form of an absolute path. -/
def pathToString (p : List String) : String := "/" ++ joinSlash p

/-- `shared_utils.get_safe_path`: strip leading separators, join onto the
resolved `PROJECTS_DIR`, canonicalize, and require the result to be the
root itself or a descendant (`Path.is_relative_to`, an ancestry check on
components).  Errors model the raised `ValueError`. -/
def get_safe_path (root : List String) (path : String) : Except String (List String) :=
  let full := resolveAbs (root ++ splitPath path)
  if root.isPrefixOf full then .ok full
  else .error ("Access to path outside of projects directory is not allowed: " ++ path)

/-! ## Filesystem model

A finite filesystem: a list of directory paths and a list of
(file path, content) pairs, all absolute canonical component lists.
Write corruption is made explicit: the physical layer may store a
string different from the one requested (`stored` parameter at call
sites), which is exactly what the read-back verification in the source
exists to detect. -/

structure FS where
  dirs : List (List String)
  files : List (List String × String)
deriving Repr, DecidableEq

def FS.isDir (fs : FS) (p : List String) : Bool := fs.dirs.contains p

def FS.isFile (fs : FS) (p : List String) : Bool := fs.files.any (fun e => e.1 == p)

def FS.fileContent (fs : FS) (p : List String) : Option String :=
  (fs.files.find? (fun e => e.1 == p)).map (·.2)

/-- Physical write: afterwards exactly one entry exists at `p`, holding
whatever the storage actually kept. -/
def FS.writeFile (fs : FS) (p : List String) (stored : String) : FS :=
  { fs with files := (p, stored) :: fs.files.filter (fun e => e.1 ≠ p) }

def FS.removeFile (fs : FS) (p : List String) : FS :=
  { fs with files := fs.files.filter (fun e => e.1 ≠ p) }

def FS.removeDir (fs : FS) (p : List String) : FS :=
  { fs with dirs := fs.dirs.filter (fun d => d ≠ p) }

/-- Whether a directory has any entry strictly below it (what makes
`Path.rmdir` fail with `OSError: Directory not empty`). -/
def FS.hasChildren (fs : FS) (p : List String) : Bool :=
  fs.dirs.any (fun d => d ≠ p && p.isPrefixOf d) ||
  fs.files.any (fun e => p.isPrefixOf e.1 && e.1 ≠ p)

/-- All nonempty ancestors of a path, the path included. -/
def initsOf (p : List String) : List (List String) :=
  (List.range p.length).map (fun i => p.take (i + 1))

/-- `Path.mkdir(parents=True, exist_ok=True)` / `os.makedirs(..., exist_ok=True)`:
create the directory and every missing ancestor. -/
def FS.mkdirAll (fs : FS) (p : List String) : FS :=
  { fs with dirs := fs.dirs ++ (initsOf p).filter (fun q => ¬ fs.dirs.contains q) }

/-! ## Project state store (`project_state.py`) -/

/-- The in-memory `project_state` dict: two sets of relative path
strings, modelled as duplicate-free-by-construction lists. -/
structure PState where
  folders : List String
  files : List String
deriving Repr, DecidableEq

/-- Python `set.add`. -/
def addStr (l : List String) (x : String) : List String :=
  if l.contains x then l else l ++ [x]

/-- Python `set.discard` / removal. -/
def removeStr (l : List String) (x : String) : List String :=
  l.filter (fun y => y ≠ x)

/-- Modelled from the spec: `update_project_state` is imported by
`shared_utils.py` from `project_state` but its definition is not among
the provided sources; §4.3 `incrementalUpdate(path, isFolder, isDelete)`
"adds `path` to the appropriate set if `isDelete` is false, or removes
it from the appropriate set if true". -/
def update_project_state (st : PState) (path : String) (is_folder : Bool) (is_delete : Bool) : PState :=
  if is_delete then
    if is_folder then { st with folders := removeStr st.folders path }
    else { st with files := removeStr st.files path }
  else
    if is_folder then { st with folders := addStr st.folders path }
    else { st with files := addStr st.files path }

/-- The persisted snapshot file contents (`project_state.json`): two
order-irrelevant lists under fixed keys. -/
structure Snapshot where
  folders : List String
  files : List String
deriving Repr, DecidableEq

/-- `project_state.save_state_to_file`: serialize both sets as lists. -/
def save_state_to_file (st : PState) : Snapshot :=
  ⟨st.folders, st.files⟩

/-! ## Verified mutation primitives (`shared_utils.py`)

Each fallible operation returns `Except String ...`; `.error` carries
the `detail` of the `HTTPException` the source raises from its outer
`except` block (for `read_file`, the error string the source returns as
its result). -/

/-- The absolute path `create_file` actually operates on:
`os.path.normpath(path).lstrip(os.sep).replace('\\', '/')` joined onto
`PROJECTS_DIR` and canonicalized by the OS when used.  Note: no call to
`get_safe_path` anywhere in this pipeline. -/
def create_file_target (root : List String) (path : String) : List String :=
  resolveAbs (root ++ bsSplit (pyNormpathSegs path))

/-- The relative path `create_file` reports to the state store:
`str(full_path.relative_to(PROJECTS_DIR))` on the unresolved joined
path, i.e. the normalized components joined with `'/'` (`"."` when
empty). -/
def create_file_rel (path : String) : String :=
  let segs := bsSplit (pyNormpathSegs path)
  if segs.isEmpty then "." else joinSlash segs

/-- `shared_utils.create_file(path, content)`: normalize the path
*without any sandbox check*, create parent directories, write, check
existence, re-read and compare with the requested content
(`ValueError` on mismatch), then record the file in the project state.
`stored` is what the physical write actually left on disk. -/
def create_file (root : List String) (fs : FS) (st : PState)
    (path content stored : String) : Except String (FS × PState × String) :=
  let segs := bsSplit (pyNormpathSegs path)
  let target := resolveAbs (root ++ segs)
  let fs1 := fs.mkdirAll (resolveAbs ((root ++ segs).dropLast))
  if fs1.isDir target then
    .error ("Error creating file: Is a directory: " ++ pathToString target)
  else
    let fs2 := fs1.writeFile target stored
    if ¬ fs2.isFile target then
      .error ("Error creating file: Failed to create file: " ++ pathToString target)
    else if stored = content then
      let rel := if segs.isEmpty then "." else joinSlash segs
      .ok (fs2, update_project_state st rel false false,
           "File created: " ++ pathToString target)
    else
      .error ("Error creating file: File content verification failed for " ++ pathToString target)

/-- `shared_utils.write_to_file(path, content)`: resolve through
`get_safe_path`, `os.makedirs(dirname, exist_ok=True)`, write, check
existence, re-read and compare (`ValueError` on mismatch), then record
the *raw* `path` argument in the project state. -/
def write_to_file (root : List String) (fs : FS) (st : PState)
    (path content stored : String) : Except String (FS × PState × String) :=
  match get_safe_path root path with
  | .error e => .error ("Error writing to file: " ++ e)
  | .ok full =>
    let fs1 := fs.mkdirAll full.dropLast
    if fs1.isDir full then
      .error ("Error writing to file: Is a directory: " ++ pathToString full)
    else
      let fs2 := fs1.writeFile full stored
      if ¬ fs2.isFile full then
        .error ("Error writing to file: Failed to create file: " ++ pathToString full)
      else if stored = content then
        .ok (fs2, update_project_state st path false false,
             "Content written to file: " ++ pathToString full)
      else
        .error ("Error writing to file: File content verification failed for " ++ pathToString full)

/-- `shared_utils.read_file(path)`: resolve through `get_safe_path`,
raise `FileNotFoundError` unless a regular file is there, else return
its text.  The source's outer `except` turns the raised error into the
returned string `"Error reading file: ..."`; `.error` here carries that
text. -/
def read_file (root : List String) (fs : FS) (path : String) : Except String String :=
  match get_safe_path root path with
  | .error e => .error ("Error reading file: " ++ e)
  | .ok full =>
    if fs.isFile full then
      match fs.fileContent full with
      | some c => .ok c
      | none => .error ("Error reading file: File not found: " ++ pathToString full)
    else .error ("Error reading file: File not found: " ++ pathToString full)

/-- `shared_utils.delete_file(path)`: resolve through `get_safe_path`;
unlink a file, `rmdir` an (empty) directory, raise `FileNotFoundError`
otherwise; then update the project state with
`is_folder=full_path.is_dir()` — evaluated *after* the deletion — and
`is_delete=True`. -/
def delete_file (root : List String) (fs : FS) (st : PState)
    (path : String) : Except String (FS × PState × String) :=
  match get_safe_path root path with
  | .error e => .error ("Error deleting file: " ++ e)
  | .ok full =>
    if fs.isFile full then
      let fs2 := fs.removeFile full
      .ok (fs2, update_project_state st path (fs2.isDir full) true,
           "Deleted: " ++ pathToString full)
    else if fs.isDir full then
      if fs.hasChildren full then
        .error ("Error deleting file: Directory not empty: " ++ pathToString full)
      else
        let fs2 := fs.removeDir full
        .ok (fs2, update_project_state st path (fs2.isDir full) true,
             "Deleted: " ++ pathToString full)
    else
      .error ("Error deleting file: File or directory not found: " ++ pathToString full)

/-! ## Retry wrapper (`shared_utils.retry_file_operation`)

The wrapped operation is a function of the attempt index (so that one
run can fail and a later one succeed); the result records the value or
the re-raised final error, together with the number of attempts made.
If the attempt ceiling is `0` the Python `for` body never runs and the
function falls through returning `None`, modelled by `.ok none`. -/

def retry_go {E A : Type} (op : Nat → Except E A) (maxAttempts : Nat)
    (attempt : Nat) : Except E (Option A) × Nat :=
  if _h : attempt < maxAttempts then
    match op attempt with
    | .ok a => (.ok (some a), attempt + 1)
    | .error e =>
      if attempt + 1 = maxAttempts then (.error e, attempt + 1)
      else retry_go op maxAttempts (attempt + 1)
  else (.ok none, attempt)
termination_by maxAttempts - attempt

def retry_file_operation {E A : Type} (op : Nat → Except E A)
    (maxAttempts : Nat := 5) : Except E (Option A) × Nat :=
  retry_go op maxAttempts 0

/-! ## Full-rescan synchronization (`project_state.py`)

`os.walk(PROJECTS_DIR)` yields, for every directory of the tree rooted
at `PROJECTS_DIR`, that directory with its direct child directory and
file names; on a real (parent-closed) filesystem those are exactly the
root plus the directories strictly under it. -/

/-- Direct child directories of `d`, as full paths. -/
def childDirs (fs : FS) (d : List String) : List (List String) :=
  fs.dirs.filter (fun p => !p.isEmpty && p.dropLast == d)

/-- Direct child files of `d`, as full paths. -/
def childFiles (fs : FS) (d : List String) : List (List String) :=
  (fs.files.map (·.1)).filter (fun p => !p.isEmpty && p.dropLast == d)

/-- The directories `os.walk(PROJECTS_DIR)` visits. -/
def walked (root : List String) (fs : FS) : List (List String) :=
  root :: fs.dirs.filter (fun d => root.isPrefixOf d && d != root)

/-- `os.path.relpath(os.path.join(walk_root, name), PROJECTS_DIR)` for an
entry with full path `p` under `root`. -/
def relOf (root : List String) (p : List String) : String :=
  joinSlash (p.drop root.length)

/-- `project_state.sync_project_state_with_fs`: rebuild both sets from a
fresh `os.walk`, wholesale, normalizing each relative path with
`.replace(os.sep, '/')`; assign the global state, persist it, return
it.  The prior state `st` is ignored by construction. -/
def sync_project_state_with_fs (root : List String) (fs : FS) (st : PState) :
    PState × Snapshot :=
  let _prior := st
  let new_state : PState :=
    { folders := (walked root fs).flatMap
        (fun d => (childDirs fs d).map (fun p => pyReplaceSep (relOf root p))),
      files := (walked root fs).flatMap
        (fun d => (childFiles fs d).map (fun p => pyReplaceSep (relOf root p))) }
  (new_state, save_state_to_file new_state)

/-- `project_state.refresh_project_state`: the second full-rescan
implementation; identical walk, but each relative path is normalized
with `.replace('\\', '/')` instead of `.replace(os.sep, '/')`. -/
def refresh_project_state (root : List String) (fs : FS) (st : PState) :
    PState × Snapshot :=
  let _prior := st
  let new_state : PState :=
    { folders := (walked root fs).flatMap
        (fun d => (childDirs fs d).map (fun p => pyReplaceBS (relOf root p))),
      files := (walked root fs).flatMap
        (fun d => (childFiles fs d).map (fun p => pyReplaceBS (relOf root p))) }
  (new_state, save_state_to_file new_state)

/-- A real filesystem is parent-closed: the parent of every entry under
the root is the root itself or another directory of the tree
(otherwise `os.walk` could never have reached it). -/
def ParentClosed (root : List String) (fs : FS) : Prop :=
  (∀ p ∈ fs.dirs, root <+: p → p ≠ root → (p.dropLast = root ∨ p.dropLast ∈ fs.dirs)) ∧
  (∀ e ∈ fs.files, root <+: e.1 → e.1 ≠ root → (e.1.dropLast = root ∨ e.1.dropLast ∈ fs.dirs))

instance (root : List String) (fs : FS) : Decidable (ParentClosed root fs) := by
  unfold ParentClosed
  infer_instance

/-- No entry name below the root contains a backslash character — the
condition under which the two rescan implementations coincide. -/
def NoBackslashNames (root : List String) (fs : FS) : Prop :=
  (∀ p ∈ fs.dirs, root <+: p → ∀ c ∈ p.drop root.length, '\\' ∉ c.data) ∧
  (∀ e ∈ fs.files, root <+: e.1 → ∀ c ∈ e.1.drop root.length, '\\' ∉ c.data)

instance (root : List String) (fs : FS) : Decidable (NoBackslashNames root fs) := by
  unfold NoBackslashNames
  infer_instance

/-! ## Virtual console `cd` (`backend.py`) -/

/-- `os.path.join(a, b)` for POSIX strings. -/
def osJoin (a b : String) : String :=
  if startsWithSlash b then b
  else if a = "" || endsWithSlash a then a ++ b
  else a ++ "/" ++ b

/-- `get_relative_cwd`: `Path(current_working_directory).relative_to(PROJECTS_DIR)`
as a string (`"."` when the cwd is the root itself). -/
def get_relative_cwd (root : List String) (cwd : String) : String :=
  let c := splitPath cwd
  if c = root then "." else joinSlash (c.drop root.length)

/-- One console response: the reported text and the reported relative
cwd. -/
structure CdResult where
  result : String
  cwd : String
deriving Repr, DecidableEq

/-- `backend.handle_cd(path)`: resolve `os.path.join(current_working_directory, path)`
through `get_safe_path`; if the result is an existing directory the
process-wide cwd becomes that absolute path, else a non-fatal
"not found" message leaves it unchanged; resolver errors are caught into
an error message, also leaving it unchanged.  Returns the response
together with the new `current_working_directory`. -/
def handle_cd (root : List String) (fs : FS) (cwd : String) (path : String) :
    CdResult × String :=
  match get_safe_path root (osJoin cwd path) with
  | .error e =>
    (⟨"Error changing directory: " ++ e, get_relative_cwd root cwd⟩, cwd)
  | .ok full =>
    if fs.isDir full then
      let newCwd := pathToString full
      (⟨"Changed directory to: " ++ get_relative_cwd root newCwd,
        get_relative_cwd root newCwd⟩, newCwd)
    else
      (⟨"Directory not found or access denied: " ++ path,
        get_relative_cwd root cwd⟩, cwd)

/-! ## Helper lemmas -/

theorem isPrefixOf_true_iff {l₁ l₂ : List String} :
    l₁.isPrefixOf l₂ = true ↔ l₁ <+: l₂ := by simp

theorem dropLast_pre_self (l : List String) : l.dropLast <+: l := by
  by_cases h : l = []
  · simp [h]
  · exact ⟨[l.getLast h], List.dropLast_append_getLast h⟩

theorem pre_dropLast {root p : List String} (h : root <+: p) (hne : p ≠ root) :
    root <+: p.dropLast := by
  obtain ⟨t, rfl⟩ := h
  cases t with
  | nil => simp at hne
  | cons a t' =>
    refine ⟨(a :: t').dropLast, ?_⟩
    rw [List.dropLast_append_cons]

theorem fileContent_writeFile (fs : FS) (p : List String) (s : String) :
    (fs.writeFile p s).fileContent p = some s := by
  simp [FS.writeFile, FS.fileContent]

theorem isFile_writeFile (fs : FS) (p : List String) (s : String) :
    (fs.writeFile p s).isFile p = true := by
  simp [FS.writeFile, FS.isFile]

theorem isFile_removeFile (fs : FS) (p : List String) :
    (fs.removeFile p).isFile p = false := by
  simp [FS.removeFile, FS.isFile, List.any_eq_true]

theorem isDir_removeFile (fs : FS) (p q : List String) :
    (fs.removeFile p).isDir q = fs.isDir q := rfl

theorem isDir_removeDir (fs : FS) (p : List String) :
    (fs.removeDir p).isDir p = false := by
  simp [FS.removeDir, FS.isDir, List.contains_eq_any_beq, List.any_eq_true]

theorem not_mem_removeStr (l : List String) (x : String) :
    x ∉ removeStr l x := by
  simp [removeStr]

theorem pyReplaceSep_eq (s : String) : pyReplaceSep s = s := by
  unfold pyReplaceSep
  have h : ∀ l : List Char, l.map (fun c => if c = '/' then '/' else c) = l := by
    intro l
    induction l with
    | nil => rfl
    | cons c t ih => by_cases hc : c = '/' <;> simp [hc, ih]
  rw [h]

/-! ## Claim theorems -/

/-- Claim C1 (code bug, evaluated at the failing input): `create_file`
never consults the Path Sandbox Resolver.  With
`PROJECTS_DIR = /home/user/projects`, calling
`create_file("../../etc/passwd", "pwned")` succeeds and writes the file
at `/home/etc/passwd`, a path the resolver itself rejects and that is
not under the sandbox root — contradicting the claim that the call is
validated through §4.1 and fails with nothing created outside the
root. -/
theorem C1_create_file_escapes_sandbox :
    isErr (get_safe_path ["home", "user", "projects"] "../../etc/passwd") = true
  ∧ create_file ["home", "user", "projects"]
      ⟨[["home"], ["home", "user"], ["home", "user", "projects"]], []⟩
      ⟨[], []⟩ "../../etc/passwd" "pwned" "pwned" =
      .ok (⟨[["home"], ["home", "user"], ["home", "user", "projects"], ["home", "etc"]],
            [(["home", "etc", "passwd"], "pwned")]⟩,
           ⟨[], ["../../etc/passwd"]⟩,
           "File created: /home/etc/passwd")
  ∧ ["home", "user", "projects"].isPrefixOf ["home", "etc", "passwd"] = false := by
  exact ⟨by decide, by decide, by decide⟩

/-- Claim C2, amended: `get_safe_path` rejects exactly the inputs whose
canonicalized `SandboxRoot/p` is not the root or a descendant of it,
and returns that canonical absolute path otherwise; but separators are
not uniform: on POSIX a backslash is an ordinary character (see the
counterexample theorem). -/
theorem C2_resolver_amended (root : List String) (path : String) :
    (root.isPrefixOf (resolveAbs (root ++ splitPath path)) = false →
      get_safe_path root path =
        .error ("Access to path outside of projects directory is not allowed: " ++ path))
  ∧ (root.isPrefixOf (resolveAbs (root ++ splitPath path)) = true →
      get_safe_path root path = .ok (resolveAbs (root ++ splitPath path))) := by
  constructor
  · intro h
    unfold get_safe_path
    simp only [h]
    rfl
  · intro h
    unfold get_safe_path
    simp only [h]
    rfl

/-- Witness for `C2_resolver_amended`, instantiating the rejection
branch at `"../../etc/passwd"` and the acceptance branch at
`"a/b.txt"`, under root `/app/projects`. -/
theorem C2_resolver_amended_witness :
    (["app", "projects"].isPrefixOf
        (resolveAbs (["app", "projects"] ++ splitPath "../../etc/passwd")) = false
      ∧ get_safe_path ["app", "projects"] "../../etc/passwd" =
          .error ("Access to path outside of projects directory is not allowed: ../../etc/passwd"))
  ∧ (["app", "projects"].isPrefixOf
        (resolveAbs (["app", "projects"] ++ splitPath "a/b.txt")) = true
      ∧ get_safe_path ["app", "projects"] "a/b.txt" =
          .ok (resolveAbs (["app", "projects"] ++ splitPath "a/b.txt"))
      ∧ resolveAbs (["app", "projects"] ++ splitPath "a/b.txt") =
          ["app", "projects", "a", "b.txt"]) :=
  ⟨⟨by decide, (C2_resolver_amended ["app", "projects"] "../../etc/passwd").1 (by decide)⟩,
   ⟨by decide, (C2_resolver_amended ["app", "projects"] "a/b.txt").2 (by decide), by decide⟩⟩

/-- Claim C2, counterexample: the claim asserts that Windows-style
separators are treated uniformly, so that `"..\\..\\secret"` is
rejected like `"../../etc/passwd"`; on the POSIX semantics the code
runs under, the backslashes are ordinary file-name characters, the
whole string is one component inside the root, and `get_safe_path`
accepts it. -/
theorem C2_backslash_not_rejected :
    get_safe_path ["app", "projects"] "..\\..\\secret" =
      .ok ["app", "projects", "..\\..\\secret"] := by decide

/-- Claim C9 (code bug, evaluated at the failing input): `handle_cd`
feeds `os.path.join(current_working_directory, path)` — an *absolute*
path — back into `get_safe_path`, which re-prefixes the sandbox root.
With root `/app/projects`, cwd `/app/projects` and an existing
directory `/app/projects/sub`, `cd sub` checks
`/app/projects/app/projects/sub` instead, reports "not found" and
leaves the cwd unchanged, although `sub` resolved relative to the
virtual cwd names an existing directory. -/
theorem C9_cd_existing_dir_not_entered :
    (let root := ["app", "projects"]
     let fs : FS := ⟨[["app"], ["app", "projects"], ["app", "projects", "sub"]], []⟩
     fs.isDir ["app", "projects", "sub"] = true
     ∧ handle_cd root fs "/app/projects" "sub" =
        (⟨"Directory not found or access denied: sub", "."⟩, "/app/projects")) := by
  exact ⟨by decide, by decide⟩

/-- Claim C3: whenever `create_file` or `write_to_file` reports success,
the content physically stored at the resolved path — and what
`read_file` subsequently returns — is byte-for-byte the requested
content; when the re-read content differs from the requested one, the
operation fails (the source's `ValueError("File content verification
failed ...")`) instead of reporting success. -/
theorem C3_write_verified (root : List String) (fs : FS) (st : PState)
    (p c stored : String) (full : List String)
    (hg : get_safe_path root p = .ok full) :
    ((∀ fs' st' m, write_to_file root fs st p c stored = .ok (fs', st', m) →
        fs'.fileContent full = some c ∧ read_file root fs' p = .ok c)
      ∧ (stored ≠ c → isErr (write_to_file root fs st p c stored) = true))
  ∧ (create_file_target root p = full →
      ((∀ fs' st' m, create_file root fs st p c stored = .ok (fs', st', m) →
          fs'.fileContent full = some c ∧ read_file root fs' p = .ok c)
        ∧ (stored ≠ c → isErr (create_file root fs st p c stored) = true))) := by
  constructor
  · constructor
    · intro fs' st' m h
      unfold write_to_file at h
      rw [hg] at h
      dsimp only at h
      split_ifs at h with h1 h2 h3
      simp only [Except.ok.injEq, Prod.mk.injEq] at h
      obtain ⟨hfs, -, -⟩ := h
      subst hfs
      subst h3
      refine ⟨fileContent_writeFile _ _ _, ?_⟩
      unfold read_file
      rw [hg]
      simp [isFile_writeFile, fileContent_writeFile]
    · intro hne
      unfold write_to_file
      rw [hg]
      dsimp only
      split_ifs with h1 h2
      all_goals rfl
  · intro htgt
    unfold create_file_target at htgt
    constructor
    · intro fs' st' m h
      unfold create_file at h
      dsimp only at h
      rw [htgt] at h
      split_ifs at h with h1 h2 h3 h4
      all_goals
        simp only [Except.ok.injEq, Prod.mk.injEq] at h
      all_goals
        obtain ⟨hfs, -, -⟩ := h
      all_goals
        subst hfs
      all_goals
        subst h3
      all_goals
        refine ⟨fileContent_writeFile _ _ _, ?_⟩
      all_goals
        unfold read_file
      all_goals
        rw [hg]
      all_goals
        simp [isFile_writeFile, fileContent_writeFile]
    · intro hne
      unfold create_file
      dsimp only
      rw [htgt]
      split_ifs with h1 h2
      all_goals rfl

/-- Witness for `C3_write_verified` at root `/r`, path `"a/b.txt"`,
content `"hi"`:  a faithful write round-trips through `read_file`, and
a write the storage corrupted to `"h"` is rejected. -/
theorem C3_write_verified_witness :
    (get_safe_path ["r"] "a/b.txt" = .ok ["r", "a", "b.txt"])
  ∧ (∀ fs' st' m,
        write_to_file ["r"] ⟨[["r"]], []⟩ ⟨[], []⟩ "a/b.txt" "hi" "hi" = .ok (fs', st', m) →
        fs'.fileContent ["r", "a", "b.txt"] = some "hi"
        ∧ read_file ["r"] fs' "a/b.txt" = .ok "hi")
  ∧ ("h" ≠ "hi" →
        isErr (write_to_file ["r"] ⟨[["r"]], []⟩ ⟨[], []⟩ "a/b.txt" "hi" "h") = true) :=
  ⟨by decide,
   (C3_write_verified ["r"] ⟨[["r"]], []⟩ ⟨[], []⟩ "a/b.txt" "hi" "hi"
      ["r", "a", "b.txt"] (by decide)).1.1,
   (C3_write_verified ["r"] ⟨[["r"]], []⟩ ⟨[], []⟩ "a/b.txt" "hi" "h"
      ["r", "a", "b.txt"] (by decide)).1.2⟩

/-- Claim C4: for an in-sandbox path, `delete_file` unlinks a file,
structurally removes an empty directory, raises `FileNotFoundError`
when neither exists, and fails on a non-empty directory instead of
recursing into it. -/
theorem C4_delete_semantics (root : List String) (fs : FS) (st : PState)
    (p : String) (full : List String)
    (hg : get_safe_path root p = .ok full) :
    (fs.isFile full = true →
       ∃ st', delete_file root fs st p =
           .ok (fs.removeFile full, st', "Deleted: " ++ pathToString full)
         ∧ (fs.removeFile full).isFile full = false)
  ∧ (fs.isFile full = false → fs.isDir full = true → fs.hasChildren full = false →
       ∃ st', delete_file root fs st p =
           .ok (fs.removeDir full, st', "Deleted: " ++ pathToString full)
         ∧ (fs.removeDir full).isDir full = false)
  ∧ (fs.isFile full = false → fs.isDir full = false →
       delete_file root fs st p =
         .error ("Error deleting file: File or directory not found: " ++ pathToString full))
  ∧ (fs.isFile full = false → fs.isDir full = true → fs.hasChildren full = true →
       isErr (delete_file root fs st p) = true) := by
  refine ⟨?_, ?_, ?_, ?_⟩
  · intro hf
    refine ⟨update_project_state st p ((fs.removeFile full).isDir full) true, ?_, isFile_removeFile fs full⟩
    unfold delete_file
    rw [hg]
    simp [hf]
  · intro hf hd hc
    refine ⟨update_project_state st p ((fs.removeDir full).isDir full) true, ?_, isDir_removeDir fs full⟩
    unfold delete_file
    rw [hg]
    simp [hf, hd, hc]
  · intro hf hd
    unfold delete_file
    rw [hg]
    simp [hf, hd]
  · intro hf hd hc
    unfold delete_file
    rw [hg]
    simp [hf, hd, hc, isErr]

/-- Witness for `C4_delete_semantics` at root `/r`: deleting the file
`"a/b.txt"`, the empty directory `"a/empty"`, a missing path, and the
non-empty directory `"a"`. -/
theorem C4_delete_semantics_witness :
    (get_safe_path ["r"] "a/b.txt" = .ok ["r", "a", "b.txt"]
      ∧ FS.isFile ⟨[["r"], ["r", "a"], ["r", "a", "empty"]], [(["r", "a", "b.txt"], "hi")]⟩
          ["r", "a", "b.txt"] = true
      ∧ ∃ st', delete_file ["r"] ⟨[["r"], ["r", "a"], ["r", "a", "empty"]], [(["r", "a", "b.txt"], "hi")]⟩
            ⟨["a", "a/empty"], ["a/b.txt"]⟩ "a/b.txt" =
            .ok (FS.removeFile ⟨[["r"], ["r", "a"], ["r", "a", "empty"]], [(["r", "a", "b.txt"], "hi")]⟩
                   ["r", "a", "b.txt"], st', "Deleted: " ++ pathToString ["r", "a", "b.txt"])
          ∧ (FS.removeFile ⟨[["r"], ["r", "a"], ["r", "a", "empty"]], [(["r", "a", "b.txt"], "hi")]⟩
               ["r", "a", "b.txt"]).isFile ["r", "a", "b.txt"] = false)
  ∧ (get_safe_path ["r"] "nosuch" = .ok ["r", "nosuch"]
      ∧ delete_file ["r"] ⟨[["r"], ["r", "a"], ["r", "a", "empty"]], [(["r", "a", "b.txt"], "hi")]⟩
          ⟨["a", "a/empty"], ["a/b.txt"]⟩ "nosuch" =
          .error ("Error deleting file: File or directory not found: " ++ pathToString ["r", "nosuch"]))
  ∧ (get_safe_path ["r"] "a" = .ok ["r", "a"]
      ∧ isErr (delete_file ["r"] ⟨[["r"], ["r", "a"], ["r", "a", "empty"]], [(["r", "a", "b.txt"], "hi")]⟩
          ⟨["a", "a/empty"], ["a/b.txt"]⟩ "a") = true) :=
  ⟨⟨by decide, by decide,
    (C4_delete_semantics ["r"] ⟨[["r"], ["r", "a"], ["r", "a", "empty"]], [(["r", "a", "b.txt"], "hi")]⟩
       ⟨["a", "a/empty"], ["a/b.txt"]⟩ "a/b.txt" ["r", "a", "b.txt"] (by decide)).1 (by decide)⟩,
   ⟨by decide,
    (C4_delete_semantics ["r"] ⟨[["r"], ["r", "a"], ["r", "a", "empty"]], [(["r", "a", "b.txt"], "hi")]⟩
       ⟨["a", "a/empty"], ["a/b.txt"]⟩ "nosuch" ["r", "nosuch"] (by decide)).2.2.1 (by decide) (by decide)⟩,
   ⟨by decide,
    (C4_delete_semantics ["r"] ⟨[["r"], ["r", "a"], ["r", "a", "empty"]], [(["r", "a", "b.txt"], "hi")]⟩
       ⟨["a", "a/empty"], ["a/b.txt"]⟩ "a" ["r", "a"] (by decide)).2.2.2 (by decide) (by decide) (by decide)⟩⟩

/-- Claim C5: deleting an existing in-sandbox file removes its path
from the state store's `files` set (`update_project_state` with
`is_delete=True`; `is_folder` is `full_path.is_dir()` evaluated after
the unlink, hence `False` for a file), and a subsequent `read_file`
takes the `FileNotFoundError` branch. -/
theorem C5_delete_updates_state (root : List String) (fs : FS) (st : PState)
    (p : String) (full : List String)
    (hg : get_safe_path root p = .ok full)
    (hf : fs.isFile full = true)
    (hnd : fs.isDir full = false) :
    delete_file root fs st p =
      .ok (fs.removeFile full, update_project_state st p false true,
           "Deleted: " ++ pathToString full)
  ∧ p ∉ (update_project_state st p false true).files
  ∧ read_file root (fs.removeFile full) p =
      .error ("Error reading file: File not found: " ++ pathToString full) := by
  refine ⟨?_, ?_, ?_⟩
  · unfold delete_file
    rw [hg]
    dsimp only
    rw [show (fs.removeFile full).isDir full = false from hnd]
    simp [hf]
  · simp only [update_project_state, if_pos, if_neg, Bool.false_eq_true, ite_false, ite_true]
    exact not_mem_removeStr st.files p
  · unfold read_file
    rw [hg]
    simp [isFile_removeFile]

/-- Witness for `C5_delete_updates_state` at root `/r`, deleting the
file `"a/b.txt"`. -/
theorem C5_delete_updates_state_witness :
    (get_safe_path ["r"] "a/b.txt" = .ok ["r", "a", "b.txt"]
      ∧ FS.isFile ⟨[["r"], ["r", "a"]], [(["r", "a", "b.txt"], "hi")]⟩ ["r", "a", "b.txt"] = true
      ∧ FS.isDir ⟨[["r"], ["r", "a"]], [(["r", "a", "b.txt"], "hi")]⟩ ["r", "a", "b.txt"] = false)
  ∧ (delete_file ["r"] ⟨[["r"], ["r", "a"]], [(["r", "a", "b.txt"], "hi")]⟩ ⟨["a"], ["a/b.txt"]⟩ "a/b.txt" =
      .ok (FS.removeFile ⟨[["r"], ["r", "a"]], [(["r", "a", "b.txt"], "hi")]⟩ ["r", "a", "b.txt"],
           update_project_state ⟨["a"], ["a/b.txt"]⟩ "a/b.txt" false true,
           "Deleted: " ++ pathToString ["r", "a", "b.txt"])
     ∧ "a/b.txt" ∉ (update_project_state ⟨["a"], ["a/b.txt"]⟩ "a/b.txt" false true).files
     ∧ read_file ["r"] (FS.removeFile ⟨[["r"], ["r", "a"]], [(["r", "a", "b.txt"], "hi")]⟩ ["r", "a", "b.txt"]) "a/b.txt" =
        .error ("Error reading file: File not found: " ++ pathToString ["r", "a", "b.txt"])) :=
  ⟨⟨by decide, by decide, by decide⟩,
   C5_delete_updates_state ["r"] ⟨[["r"], ["r", "a"]], [(["r", "a", "b.txt"], "hi")]⟩
     ⟨["a"], ["a/b.txt"]⟩ "a/b.txt" ["r", "a", "b.txt"] (by decide) (by decide) (by decide)⟩

/-- Claim C6, counterexample: starting from an empty state,
`create_file("a/b.txt", "hi")` succeeds and records `"a/b.txt"` in the
`files` set, but the `folders` set does *not* gain the parent `"a"` —
`update_project_state` (§4.3 `incrementalUpdate`) only touches the
single path it is given, refuting the claim that `folders` then
contains `"a"`. -/
theorem C6_parent_folder_missing :
    create_file ["app", "projects"] ⟨[["app"], ["app", "projects"]], []⟩ ⟨[], []⟩
        "a/b.txt" "hi" "hi" =
      .ok (⟨[["app"], ["app", "projects"], ["app", "projects", "a"]],
            [(["app", "projects", "a", "b.txt"], "hi")]⟩,
           ⟨[], ["a/b.txt"]⟩,
           "File created: /app/projects/a/b.txt")
  ∧ "a/b.txt" ∈ (⟨[], ["a/b.txt"]⟩ : PState).files
  ∧ "a" ∉ (⟨[], ["a/b.txt"]⟩ : PState).folders := by
  exact ⟨by decide, by decide, by decide⟩

/-- Claim C6, amended: after a successful `create_file(p, c)` the
`files` set contains the normalized relative form of `p`, while the
`folders` set is exactly what it was before — it does not gain the
parent directory. -/
theorem C6_state_after_create (root : List String) (fs : FS) (st : PState)
    (p c stored m : String) (fs' : FS) (st' : PState)
    (h : create_file root fs st p c stored = .ok (fs', st', m)) :
    st'.files = addStr st.files (create_file_rel p)
  ∧ st'.folders = st.folders := by
  unfold create_file at h
  dsimp only at h
  unfold create_file_rel
  split_ifs at h with h1 h2 h3 h4
  all_goals
    simp only [Except.ok.injEq, Prod.mk.injEq] at h
  all_goals
    obtain ⟨-, hst, -⟩ := h
  all_goals
    subst hst
  · rw [if_pos h4]
    exact ⟨rfl, rfl⟩
  · rw [if_neg h4]
    exact ⟨rfl, rfl⟩

/-- Witness for `C6_state_after_create` at the concrete run of the
counterexample input. -/
theorem C6_state_after_create_witness :
    (create_file ["app", "projects"] ⟨[["app"], ["app", "projects"]], []⟩ ⟨["x"], ["y"]⟩
        "a/b.txt" "hi" "hi" =
      .ok (⟨[["app"], ["app", "projects"], ["app", "projects", "a"]],
            [(["app", "projects", "a", "b.txt"], "hi")]⟩,
           ⟨["x"], ["y", "a/b.txt"]⟩,
           "File created: /app/projects/a/b.txt"))
  ∧ (⟨["x"], ["y", "a/b.txt"]⟩ : PState).files = addStr ["y"] (create_file_rel "a/b.txt")
  ∧ (⟨["x"], ["y", "a/b.txt"]⟩ : PState).folders = ["x"] :=
  ⟨by decide,
   C6_state_after_create ["app", "projects"] ⟨[["app"], ["app", "projects"]], []⟩
     ⟨["x"], ["y"]⟩ "a/b.txt" "hi" "hi" "File created: /app/projects/a/b.txt"
     ⟨[["app"], ["app", "projects"], ["app", "projects", "a"]],
      [(["app", "projects", "a", "b.txt"], "hi")]⟩
     ⟨["x"], ["y", "a/b.txt"]⟩ (by decide)⟩

theorem retry_go_step {E A : Type} (op : Nat → Except E A) (maxA j : Nat)
    (hj : j + 1 < maxA) (hf : isErr (op j) = true) :
    retry_go op maxA j = retry_go op maxA (j + 1) := by
  rw [retry_go]
  rw [dif_pos (Nat.lt_of_succ_lt hj)]
  cases hop : op j with
  | ok a => rw [hop] at hf; simp [isErr] at hf
  | error e =>
    dsimp only
    rw [if_neg (Nat.ne_of_lt hj)]

theorem retry_go_walk {E A : Type} (op : Nat → Except E A) (maxA : Nat) :
    ∀ m, (∀ i, i < m → isErr (op i) = true) → m + 1 ≤ maxA →
      retry_go op maxA 0 = retry_go op maxA m := by
  intro m
  induction m with
  | zero => intro _ _; rfl
  | succ k ih =>
    intro hf hle
    rw [ih (fun i hi => hf i (Nat.lt_succ_of_lt hi)) (by omega)]
    exact retry_go_step op maxA k (by omega) (hf k (Nat.lt_succ_self k))

/-- Claim C7: an operation that fails on its first `N − 1` attempts and
succeeds on attempt `N ≤ ceiling` makes the wrapper return that success
after exactly `N` attempts; one that fails every attempt makes it
re-raise the final failure unchanged after exactly `ceiling`
attempts. -/
theorem C7_retry_attempts (E A : Type) :
    (∀ (op : Nat → Except E A) (N maxA : Nat) (a : A),
        1 ≤ N → N ≤ maxA →
        (∀ i, i + 1 < N → isErr (op i) = true) →
        op (N - 1) = .ok a →
        retry_file_operation op maxA = (.ok (some a), N))
  ∧ (∀ (op : Nat → Except E A) (maxA : Nat) (e : E),
        1 ≤ maxA →
        (∀ i, i + 1 < maxA → isErr (op i) = true) →
        op (maxA - 1) = .error e →
        retry_file_operation op maxA = (.error e, maxA)) := by
  constructor
  · intro op N maxA a h1 h2 hfail hsucc
    unfold retry_file_operation
    rw [retry_go_walk op maxA (N - 1) (fun i hi => hfail i (by omega)) (by omega)]
    rw [retry_go]
    rw [dif_pos (show N - 1 < maxA by omega)]
    rw [hsucc]
    dsimp only
    rw [show N - 1 + 1 = N from by omega]
  · intro op maxA e h1 hfail hlast
    unfold retry_file_operation
    rw [retry_go_walk op maxA (maxA - 1) (fun i hi => hfail i (by omega)) (by omega)]
    rw [retry_go]
    rw [dif_pos (show maxA - 1 < maxA by omega)]
    rw [hlast]
    dsimp only
    rw [if_pos (show maxA - 1 + 1 = maxA from by omega)]
    rw [show maxA - 1 + 1 = maxA from by omega]

/-- Witness for `C7_retry_attempts`: an operation failing twice then
succeeding returns success with 3 attempts under the default ceiling 5;
an always-failing one raises `"boom"` after exactly 5 attempts. -/
theorem C7_retry_attempts_witness :
    retry_file_operation
        (fun i => if i < 2 then (Except.error "boom" : Except String Nat) else .ok 42) 5 =
      (.ok (some 42), 3)
  ∧ retry_file_operation (fun _ : Nat => (Except.error "boom" : Except String Nat)) 5 =
      (.error "boom", 5) :=
  ⟨(C7_retry_attempts String Nat).1
      (fun i => if i < 2 then (Except.error "boom" : Except String Nat) else .ok 42)
      3 5 42 (by omega) (by omega)
      (fun i hi => by dsimp only; rw [if_pos (show i < 2 from by omega)]; rfl)
      (by dsimp only; rw [if_neg (show ¬ (3 - 1 < 2) from by omega)]),
   (C7_retry_attempts String Nat).2
      (fun _ : Nat => (Except.error "boom" : Except String Nat))
      5 "boom" (by omega) (fun _ _ => rfl) rfl⟩

theorem mem_walked {root : List String} {fs : FS} {d : List String} :
    d ∈ walked root fs ↔ d = root ∨ (d ∈ fs.dirs ∧ root <+: d ∧ d ≠ root) := by
  unfold walked
  simp only [List.mem_cons, List.mem_filter, Bool.and_eq_true, isPrefixOf_true_iff,
    bne_iff_ne, ne_eq]

theorem mem_childDirs {fs : FS} {d p : List String} :
    p ∈ childDirs fs d ↔ p ∈ fs.dirs ∧ p ≠ [] ∧ p.dropLast = d := by
  unfold childDirs
  simp only [List.mem_filter, Bool.and_eq_true, Bool.not_eq_true', beq_iff_eq,
    List.isEmpty_eq_false, ne_eq]

theorem mem_childFiles {fs : FS} {d p : List String} :
    p ∈ childFiles fs d ↔ (∃ e ∈ fs.files, e.1 = p) ∧ p ≠ [] ∧ p.dropLast = d := by
  unfold childFiles
  simp only [List.mem_filter, List.mem_map, Bool.and_eq_true, Bool.not_eq_true',
    beq_iff_eq, List.isEmpty_eq_false, ne_eq]

theorem ne_root_of_parent_pre {root p : List String} (hpne : p ≠ [])
    (h : root <+: p.dropLast) : p ≠ root := by
  intro he
  subst he
  have h1 : p.length ≤ p.dropLast.length := h.length_le
  have h2 : p.dropLast.length = p.length - 1 := List.length_dropLast p
  have h3 : 0 < p.length := List.length_pos.mpr hpne
  omega

theorem nonempty_of_pre_ne {root p : List String} (h : root <+: p) (hne : p ≠ root) :
    p ≠ [] := by
  intro he
  subst he
  obtain ⟨t, ht⟩ := h
  simp only [List.append_eq_nil] at ht
  exact hne (ht.1.symm ▸ rfl)

/-- Every entry a walk step reports is a tree entry under the root. -/
theorem childDirs_walked_sub {root : List String} {fs : FS} {d p : List String}
    (hd : d ∈ walked root fs) (hp : p ∈ childDirs fs d) :
    p ∈ fs.dirs ∧ root <+: p ∧ p ≠ root := by
  rw [mem_childDirs] at hp
  obtain ⟨hpd, hpnil, hplast⟩ := hp
  rw [mem_walked] at hd
  have hparent : root <+: p.dropLast := by
    rcases hd with rfl | ⟨-, hdp, -⟩
    · rw [hplast]
    · rw [hplast]; exact hdp
  exact ⟨hpd, hparent.trans (dropLast_pre_self p), ne_root_of_parent_pre hpnil hparent⟩

theorem childFiles_walked_sub {root : List String} {fs : FS} {d p : List String}
    (hd : d ∈ walked root fs) (hp : p ∈ childFiles fs d) :
    (∃ e ∈ fs.files, e.1 = p) ∧ root <+: p ∧ p ≠ root := by
  rw [mem_childFiles] at hp
  obtain ⟨hpe, hpnil, hplast⟩ := hp
  rw [mem_walked] at hd
  have hparent : root <+: p.dropLast := by
    rcases hd with rfl | ⟨-, hdp, -⟩
    · rw [hplast]
    · rw [hplast]; exact hdp
  exact ⟨hpe, hparent.trans (dropLast_pre_self p), ne_root_of_parent_pre hpnil hparent⟩

/-- Claim C8: a full rescan rebuilds the two sets wholesale as exactly
the relative paths of the tree's directories and files, ignores the
prior cache entirely, is idempotent, and persists the snapshot it
returns. -/
theorem C8_full_rescan (root : List String) (fs : FS) (st : PState)
    (hpc : ParentClosed root fs) :
    (∀ s, s ∈ (sync_project_state_with_fs root fs st).1.folders ↔
        ∃ p ∈ fs.dirs, root <+: p ∧ p ≠ root ∧ s = relOf root p)
  ∧ (∀ s, s ∈ (sync_project_state_with_fs root fs st).1.files ↔
        ∃ e ∈ fs.files, root <+: e.1 ∧ e.1 ≠ root ∧ s = relOf root e.1)
  ∧ (∀ st', sync_project_state_with_fs root fs st' = sync_project_state_with_fs root fs st)
  ∧ sync_project_state_with_fs root fs (sync_project_state_with_fs root fs st).1 =
      sync_project_state_with_fs root fs st
  ∧ (sync_project_state_with_fs root fs st).2 =
      save_state_to_file (sync_project_state_with_fs root fs st).1 := by
  refine ⟨?_, ?_, fun st' => rfl, rfl, rfl⟩
  · intro s
    constructor
    · intro hs
      simp only [sync_project_state_with_fs, List.mem_flatMap, List.mem_map] at hs
      obtain ⟨d, hd, p, hp, rfl⟩ := hs
      obtain ⟨hpd, hpre, hproot⟩ := childDirs_walked_sub hd hp
      exact ⟨p, hpd, hpre, hproot, pyReplaceSep_eq (relOf root p)⟩
    · intro hs
      obtain ⟨p, hpd, hpre, hproot, rfl⟩ := hs
      have hpnil : p ≠ [] := nonempty_of_pre_ne hpre hproot
      simp only [sync_project_state_with_fs, List.mem_flatMap, List.mem_map]
      refine ⟨p.dropLast, ?_, p, ?_, pyReplaceSep_eq _⟩
      · rw [mem_walked]
        by_cases hdr : p.dropLast = root
        · exact Or.inl hdr
        · rcases hpc.1 p hpd hpre hproot with h | h
          · exact absurd h hdr
          · exact Or.inr ⟨h, pre_dropLast hpre hproot, hdr⟩
      · rw [mem_childDirs]
        exact ⟨hpd, hpnil, rfl⟩
  · intro s
    constructor
    · intro hs
      simp only [sync_project_state_with_fs, List.mem_flatMap, List.mem_map] at hs
      obtain ⟨d, hd, p, hp, rfl⟩ := hs
      obtain ⟨⟨e, he, rfl⟩, hpre, hproot⟩ := childFiles_walked_sub hd hp
      exact ⟨e, he, hpre, hproot, pyReplaceSep_eq (relOf root e.1)⟩
    · intro hs
      obtain ⟨e, he, hpre, hproot, rfl⟩ := hs
      have hpnil : e.1 ≠ [] := nonempty_of_pre_ne hpre hproot
      simp only [sync_project_state_with_fs, List.mem_flatMap, List.mem_map]
      refine ⟨e.1.dropLast, ?_, e.1, ?_, pyReplaceSep_eq _⟩
      · rw [mem_walked]
        by_cases hdr : e.1.dropLast = root
        · exact Or.inl hdr
        · rcases hpc.2 e he hpre hproot with h | h
          · exact absurd h hdr
          · exact Or.inr ⟨h, pre_dropLast hpre hproot, hdr⟩
      · rw [mem_childFiles]
        exact ⟨⟨e, he, rfl⟩, hpnil, rfl⟩

/-- Witness for `C8_full_rescan`: a tree with folders `x`, `x/y` and
file `x/f.txt` rescans to exactly those relative paths, from a stale
prior cache. -/
theorem C8_full_rescan_witness :
    ParentClosed ["r"] ⟨[["r"], ["r", "x"], ["r", "x", "y"]], [(["r", "x", "f.txt"], "")]⟩
  ∧ (sync_project_state_with_fs ["r"]
        ⟨[["r"], ["r", "x"], ["r", "x", "y"]], [(["r", "x", "f.txt"], "")]⟩
        ⟨["stale"], ["stale2"]⟩).1 = ⟨["x", "x/y"], ["x/f.txt"]⟩
  ∧ ("x" ∈ (sync_project_state_with_fs ["r"]
        ⟨[["r"], ["r", "x"], ["r", "x", "y"]], [(["r", "x", "f.txt"], "")]⟩
        ⟨["stale"], ["stale2"]⟩).1.folders ↔
      ∃ p ∈ ([["r"], ["r", "x"], ["r", "x", "y"]] : List (List String)),
        ["r"] <+: p ∧ p ≠ ["r"] ∧ "x" = relOf ["r"] p) :=
  ⟨by decide, by decide,
   (C8_full_rescan ["r"] ⟨[["r"], ["r", "x"], ["r", "x", "y"]], [(["r", "x", "f.txt"], "")]⟩
      ⟨["stale"], ["stale2"]⟩ (by decide)).1 "x"⟩

theorem flatMap_congr_mem {α β : Type} {l : List α} {f g : α → List β}
    (h : ∀ a ∈ l, f a = g a) : l.flatMap f = l.flatMap g := by
  induction l with
  | nil => rfl
  | cons a t ih =>
    simp only [List.flatMap_cons]
    rw [h a (List.mem_cons_self a t), ih (fun b hb => h b (List.mem_cons_of_mem a hb))]

theorem pyReplaceBS_eq_of_noBS {s : String} (h : '\\' ∉ s.data) : pyReplaceBS s = s := by
  unfold pyReplaceBS
  have hmap : ∀ l : List Char, '\\' ∉ l → l.map (fun c => if c = '\\' then '/' else c) = l := by
    intro l hl
    induction l with
    | nil => rfl
    | cons c t ih =>
      have hc : c ≠ '\\' := fun hc => hl (hc ▸ List.mem_cons_self c t)
      simp only [List.map_cons, if_neg hc, ih (fun hm => hl (List.mem_cons_of_mem c hm))]
  rw [hmap s.data h]

theorem noBS_joinSlash {segs : List String} (h : ∀ c ∈ segs, '\\' ∉ c.data) :
    '\\' ∉ (joinSlash segs).data := by
  induction segs with
  | nil => decide
  | cons s rest ih =>
    cases rest with
    | nil => simpa [joinSlash] using h s (by simp)
    | cons b bs =>
      have hs := h s (by simp)
      have hrest := ih (fun c hc => h c (List.mem_cons_of_mem s hc))
      show '\\' ∉ (s ++ "/" ++ joinSlash (b :: bs)).data
      simp only [String.data_append, List.mem_append]
      rintro ((hm | hm) | hm)
      · exact hs hm
      · revert hm; decide
      · exact hrest hm

/-- Claim C10, counterexample: on a tree containing a directory whose
name holds a backslash (`a\b`), the two full-rescan implementations
disagree — `sync_project_state_with_fs` keeps the name (replacing
POSIX `os.sep`, a no-op), while `refresh_project_state` rewrites the
backslash into a forward slash. -/
theorem C10_scan_disagreement :
    (sync_project_state_with_fs ["r"] ⟨[["r"], ["r", "a\\b"]], []⟩ ⟨[], []⟩).1.folders =
      ["a\\b"]
  ∧ (refresh_project_state ["r"] ⟨[["r"], ["r", "a\\b"]], []⟩ ⟨[], []⟩).1.folders =
      ["a/b"]
  ∧ sync_project_state_with_fs ["r"] ⟨[["r"], ["r", "a\\b"]], []⟩ ⟨[], []⟩ ≠
      refresh_project_state ["r"] ⟨[["r"], ["r", "a\\b"]], []⟩ ⟨[], []⟩ := by
  exact ⟨by decide, by decide, by decide⟩

/-- Claim C10, amended: for every tree whose entry names below the root
contain no backslash character, the two full-rescan implementations
compute identical states (and snapshots). -/
theorem C10_scan_agreement_no_backslash (root : List String) (fs : FS) (st : PState)
    (h : NoBackslashNames root fs) :
    refresh_project_state root fs st = sync_project_state_with_fs root fs st := by
  have hfold :
      (walked root fs).flatMap
          (fun d => (childDirs fs d).map (fun p => pyReplaceBS (relOf root p))) =
        (walked root fs).flatMap
          (fun d => (childDirs fs d).map (fun p => pyReplaceSep (relOf root p))) := by
    apply flatMap_congr_mem
    intro d hd
    apply List.map_congr_left
    intro p hp
    obtain ⟨hpd, hpre, -⟩ := childDirs_walked_sub hd hp
    rw [pyReplaceSep_eq]
    apply pyReplaceBS_eq_of_noBS
    unfold relOf
    exact noBS_joinSlash (fun c hc => h.1 p hpd hpre c hc)
  have hfile :
      (walked root fs).flatMap
          (fun d => (childFiles fs d).map (fun p => pyReplaceBS (relOf root p))) =
        (walked root fs).flatMap
          (fun d => (childFiles fs d).map (fun p => pyReplaceSep (relOf root p))) := by
    apply flatMap_congr_mem
    intro d hd
    apply List.map_congr_left
    intro p hp
    obtain ⟨⟨e, he, rfl⟩, hpre, -⟩ := childFiles_walked_sub hd hp
    rw [pyReplaceSep_eq]
    apply pyReplaceBS_eq_of_noBS
    unfold relOf
    exact noBS_joinSlash (fun c hc => h.2 e he hpre c hc)
  unfold refresh_project_state sync_project_state_with_fs
  dsimp only
  rw [hfold, hfile]

/-- Witness for `C10_scan_agreement_no_backslash` on the backslash-free
tree with folders `x`, `x/y` and file `x/f.txt`. -/
theorem C10_scan_agreement_witness :
    NoBackslashNames ["r"] ⟨[["r"], ["r", "x"], ["r", "x", "y"]], [(["r", "x", "f.txt"], "")]⟩
  ∧ refresh_project_state ["r"]
      ⟨[["r"], ["r", "x"], ["r", "x", "y"]], [(["r", "x", "f.txt"], "")]⟩ ⟨[], []⟩ =
    sync_project_state_with_fs ["r"]
      ⟨[["r"], ["r", "x"], ["r", "x", "y"]], [(["r", "x", "f.txt"], "")]⟩ ⟨[], []⟩ :=
  ⟨by decide,
   C10_scan_agreement_no_backslash ["r"]
     ⟨[["r"], ["r", "x"], ["r", "x", "y"]], [(["r", "x", "f.txt"], "")]⟩ ⟨[], []⟩ (by decide)⟩

end ClaudePlus
